import Mathlib

/-!
Verification development for a spot/perp arbitrage paper-trading bot.

The Python source is shallowly embedded: every `float` computation is
modelled over `ℚ` (the source performs only field arithmetic and
comparisons), stateful classes become explicit state records with
state-passing functions, and fallible operations return `Option`.
Wall-clock timestamps (ISO strings produced by `datetime`) are not part of
any verified property and are omitted from the records; where the code
compares times (risk cooldown, trade age) the relevant instant is passed
explicitly as a rational parameter.
-/

/- ### Opportunity detector — src/modules/arbitrage.py -/

/-- Configuration slice read by `ArbitrageDetector.__init__`. -/
structure DetectorConfig where
  min_spread_percent : ℚ
  trade_size_usdt : ℚ
deriving DecidableEq

/-- `self.binance_fee_percent = 0.1` in `ArbitrageDetector.__init__`. -/
def binance_fee_percent : ℚ := 1/10

/-- `self.drift_fee_percent = 0.05` in `ArbitrageDetector.__init__`. -/
def drift_fee_percent : ℚ := 1/20

/-- `self.total_fees_percent = binance + drift` (= 0.15). -/
def total_fees_percent : ℚ := binance_fee_percent + drift_fee_percent

/-- The `ArbitrageOpportunity` dataclass (timestamp omitted, see header). -/
structure ArbitrageOpportunity where
  spot_symbol : String
  perp_symbol : String
  spot_price : ℚ
  perp_price : ℚ
  spread_percent : ℚ
  potential_profit_usdt : ℚ
  trade_size_usdt : ℚ
deriving DecidableEq

/-- `ArbitrageDetector.calculate_spread`. -/
def calculate_spread (spot_price perp_price : ℚ) : ℚ :=
  ((perp_price - spot_price) / spot_price) * 100

/-- `ArbitrageDetector.calculate_profit`. -/
def calculate_profit (spread_percent trade_size_usdt : ℚ) : ℚ :=
  let gross_profit_percent := spread_percent - total_fees_percent
  if gross_profit_percent > 0 then (gross_profit_percent / 100) * trade_size_usdt else 0

/-- `ArbitrageDetector.check_opportunity` (decision part; the appended
observational history and the log line have no bearing on the returned
value and are not modelled). -/
def check_opportunity (cfg : DetectorConfig) (spot_symbol perp_symbol : String)
    (spot_price perp_price : ℚ) : Option ArbitrageOpportunity :=
  let spread_percent := calculate_spread spot_price perp_price
  if spread_percent > cfg.min_spread_percent + total_fees_percent then
    let potential_profit := calculate_profit spread_percent cfg.trade_size_usdt
    if potential_profit > 0 then
      some { spot_symbol := spot_symbol, perp_symbol := perp_symbol,
             spot_price := spot_price, perp_price := perp_price,
             spread_percent := spread_percent,
             potential_profit_usdt := potential_profit,
             trade_size_usdt := cfg.trade_size_usdt }
    else none
  else none

/-- Example symbols used in closed witness statements. -/
def sym_spot : String := "SOLUSDT"

/-- Example perp symbol used in closed witness statements. -/
def sym_perp : String := "SOLPERP"

/- ### Paper trader — src/modules/paper_trader.py -/

/-- The `status` string field of `PaperTrade` takes only these two values. -/
inductive TradeStatus where
  | OPEN : TradeStatus
  | CLOSED : TradeStatus
deriving DecidableEq

/-- The `PaperTrade` dataclass (timestamps omitted, see header). -/
structure PaperTrade where
  id : Nat
  spot_symbol : String
  perp_symbol : String
  spot_price : ℚ
  perp_price : ℚ
  trade_size_usdt : ℚ
  spread_percent : ℚ
  expected_profit : ℚ
  status : TradeStatus
  close_spot_price : Option ℚ
  close_perp_price : Option ℚ
  actual_profit : Option ℚ
deriving DecidableEq

/-- Mutable state of a `PaperTrader`. The Python object also keeps
`open_trades`, a dict from id to the very same (aliased) trade objects that
sit in `trades`; in every state reachable from a fresh trader that dict
holds exactly the trades whose `status` is OPEN, so the embedding keeps the
single list and looks open trades up by `(id, status = OPEN)`.
File persistence (`load_trades`/`save_trades`) is I/O and out of scope. -/
structure TraderState where
  initial_balance : ℚ
  balance : ℚ
  trades : List PaperTrade
  trade_counter : Nat
deriving DecidableEq

/-- `PaperTrader.__init__` with no persisted file present. -/
def freshTrader (initial_balance : ℚ) : TraderState :=
  { initial_balance := initial_balance, balance := initial_balance,
    trades := [], trade_counter := 0 }

/-- `PaperTrader.execute_trade`: balance check, id allocation, debit. -/
def execute_trade (s : TraderState) (opp : ArbitrageOpportunity) :
    TraderState × Option PaperTrade :=
  if s.balance < opp.trade_size_usdt then (s, none)
  else
    let cnt := s.trade_counter + 1
    let t : PaperTrade :=
      { id := cnt, spot_symbol := opp.spot_symbol, perp_symbol := opp.perp_symbol,
        spot_price := opp.spot_price, perp_price := opp.perp_price,
        trade_size_usdt := opp.trade_size_usdt, spread_percent := opp.spread_percent,
        expected_profit := opp.potential_profit_usdt, status := TradeStatus.OPEN,
        close_spot_price := none, close_perp_price := none, actual_profit := none }
    ({ s with trade_counter := cnt, balance := s.balance - t.trade_size_usdt,
              trades := s.trades ++ [t] }, some t)

/-- The actual-profit computation inside `PaperTrader.close_trade`:
dollar entry spread minus dollar exit spread, divided by the ENTRY spot
price, times size, minus the flat `0.0015` round-trip fee. -/
def close_profit (t : PaperTrade) (current_spot current_perp : ℚ) : ℚ :=
  let entry_spread := t.perp_price - t.spot_price
  let exit_spread := current_perp - current_spot
  let spread_captured := entry_spread - exit_spread
  let gross_profit := (spread_captured / t.spot_price) * t.trade_size_usdt
  let fees := t.trade_size_usdt * (15/10000)
  gross_profit - fees

/-- The field updates `close_trade` performs on the found trade. -/
def close_upd (t : PaperTrade) (current_spot current_perp : ℚ) : PaperTrade :=
  { t with close_spot_price := some current_spot,
           close_perp_price := some current_perp,
           actual_profit := some (close_profit t current_spot current_perp),
           status := TradeStatus.CLOSED }

/-- Locate the (unique, in reachable states) OPEN trade with the given id
and return the trade list with it closed, together with the trade found. -/
def close_first (tid : Nat) (cs cp : ℚ) :
    List PaperTrade → Option (List PaperTrade × PaperTrade)
  | [] => none
  | t :: ts =>
    if t.id = tid ∧ t.status = TradeStatus.OPEN then
      some (close_upd t cs cp :: ts, t)
    else
      match close_first tid cs cp ts with
      | none => none
      | some (ts2, u) => some (t :: ts2, u)

/-- `PaperTrader.close_trade`: `None` when the id is not an open trade,
otherwise close it, credit `size + actual_profit`, return the profit. -/
def close_trade (s : TraderState) (tid : Nat) (cs cp : ℚ) :
    TraderState × Option ℚ :=
  match close_first tid cs cp s.trades with
  | none => (s, none)
  | some (ts2, t) =>
    ({ s with trades := ts2,
              balance := s.balance + t.trade_size_usdt + close_profit t cs cp },
     some (close_profit t cs cp))

/-- One ledger operation: an attempted open or an attempted close. -/
inductive TraderOp where
  | openT (opp : ArbitrageOpportunity) : TraderOp
  | closeT (tid : Nat) (cs cp : ℚ) : TraderOp

/-- State effect of one operation (the returned value is dropped). -/
def run_op (s : TraderState) : TraderOp → TraderState
  | TraderOp.openT opp => (execute_trade s opp).1
  | TraderOp.closeT tid cs cp => (close_trade s tid cs cp).1

/-- Run a whole sequence of opens/closes. -/
def run_ops (s : TraderState) (l : List TraderOp) : TraderState :=
  l.foldl run_op s

/-- Sum of the sizes of the OPEN trades in a trade list. -/
def open_sizes : List PaperTrade → ℚ
  | [] => 0
  | t :: ts => (if t.status = TradeStatus.OPEN then t.trade_size_usdt else 0) + open_sizes ts

/-- Sum of the recorded `actual_profit` of the CLOSED trades in a list. -/
def closed_profits : List PaperTrade → ℚ
  | [] => 0
  | t :: ts =>
    (if t.status = TradeStatus.CLOSED then t.actual_profit.getD 0 else 0) + closed_profits ts

/-- §3.1 balance invariant of the spec. -/
def balance_invariant (s : TraderState) : Prop :=
  s.balance + open_sizes s.trades = s.initial_balance + closed_profits s.trades

/-- Number of OPEN trades (the Python `len(self.open_trades)`). -/
def open_count : List PaperTrade → Nat
  | [] => 0
  | t :: ts => (if t.status = TradeStatus.OPEN then 1 else 0) + open_count ts

/- ### Risk manager — src/strategy/risk_manager.py -/

/-- Configuration slice read by `RiskManager.__init__`
(`cooldown_duration` is the configured number of minutes converted to a
time offset; `max_position_size = trade_size_usdc * 3`). -/
structure RiskConfig where
  max_drawdown : ℚ
  max_trades_per_day : Nat
  cooldown_after_losses : Nat
  cooldown_duration : ℚ
  max_position_size : ℚ
deriving DecidableEq

/-- Mutable tracking state of a `RiskManager`. -/
structure RiskState where
  daily_trades : Nat
  daily_loss : ℚ
  consecutive_losses : Nat
  cooldown_until : Option ℚ
  open_positions : List (String × ℚ)
deriving DecidableEq

/-- `RiskManager.__init__` tracking fields. -/
def freshRisk : RiskState :=
  { daily_trades := 0, daily_loss := 0, consecutive_losses := 0,
    cooldown_until := none, open_positions := [] }

/-- `sum(self.open_positions.values())`. -/
def total_exposure (ps : List (String × ℚ)) : ℚ := (ps.map Prod.snd).sum

/-- The limit checks of `RiskManager.check_trade_allowed` that follow the
cooldown gate, in source order: daily trade limit, daily loss limit,
position size limit, otherwise allowed. -/
def check_trade_limits (cfg : RiskConfig) (s : RiskState) (size : ℚ) :
    (Bool × String) × RiskState :=
  if s.daily_trades ≥ cfg.max_trades_per_day then
    ((false, "Daily trade limit reached"), s)
  else if |s.daily_loss| ≥ cfg.max_drawdown then
    ((false, "Daily loss limit reached"), s)
  else if total_exposure s.open_positions + size > cfg.max_position_size then
    ((false, "Position size limit exceeded"), s)
  else
    ((true, "Trade allowed"), s)

/-- `RiskManager.check_trade_allowed` with its state effect made explicit
(the method body contains no assignment, so every branch returns the state
it was given). `now` is the explicit reading of `datetime.now()`; the
Python truthiness test `self.cooldown_until and now < self.cooldown_until`
is the `some` match plus the comparison. -/
def check_trade_allowed_s (cfg : RiskConfig) (s : RiskState) (now size : ℚ) :
    (Bool × String) × RiskState :=
  match s.cooldown_until with
  | some c =>
    if now < c then ((false, "In cooldown"), s)
    else check_trade_limits cfg s size
  | none => check_trade_limits cfg s size

/-- The `(allowed, reason)` pair returned by `check_trade_allowed`. -/
def check_trade_allowed (cfg : RiskConfig) (s : RiskState) (now size : ℚ) :
    Bool × String :=
  (check_trade_allowed_s cfg s now size).1

/-- `RiskManager.record_trade_result` (its `size` argument is accepted and
unused, exactly as in the source). -/
def record_trade_result (cfg : RiskConfig) (s : RiskState)
    (now profit size : ℚ) : RiskState :=
  let s1 := { s with daily_trades := s.daily_trades + 1,
                     daily_loss := s.daily_loss + profit }
  if profit < 0 then
    if s1.consecutive_losses + 1 ≥ cfg.cooldown_after_losses then
      { s1 with consecutive_losses := s1.consecutive_losses + 1,
                cooldown_until := some (now + cfg.cooldown_duration) }
    else
      { s1 with consecutive_losses := s1.consecutive_losses + 1 }
  else
    { s1 with consecutive_losses := 0 }

/- ### Bot v2 open path — src/arb_bot_v2.py -/

/-- Configuration slice of `ImprovedArbitrageBot` relevant to opening. -/
structure BotV2Config where
  max_open_trades : Nat
deriving DecidableEq

/-- The trade-opening path of `ImprovedArbitrageBot.price_callback` for an
already detected, quality-approved opportunity: the capacity gate
`len(open_trades) < max_open_trades` at the call site, then
`PaperTrader.execute_trade` (which checks the balance). No risk component
appears: `RiskManager.check_trade_allowed` has no caller anywhere in the
bot's trading path. -/
def price_callback_open (cfg : BotV2Config) (s : TraderState)
    (opp : ArbitrageOpportunity) : TraderState × Option PaperTrade :=
  if open_count s.trades < cfg.max_open_trades then execute_trade s opp
  else (s, none)

/-- The spread recomputed from a tick inside `price_callback` and
`check_exit_conditions`: `((perp − spot)/spot) × 100`. -/
def current_spread_pct (spot perp : ℚ) : ℚ := ((perp - spot) / spot) * 100

/-- The unrealized P&L of `check_exit_conditions`:
`(entry_spread − current_spread)/100 × size − size × 0.0015`. -/
def unrealized_pnl (entry_spread current_spread size : ℚ) : ℚ :=
  ((entry_spread - current_spread) / 100) * size - size * (15/10000)

/-- Modelled from the spec: the `actual_profit` §4.2 prescribes for
`close` — "computed the same way as `unrealized_pnl` above using the
actual fill prices": percentage entry spread minus percentage exit spread,
each taken relative to its own spot price. Stated only to be compared
with the source's `close_profit`. -/
def spec_actual_profit (t : PaperTrade) (cs cp : ℚ) : ℚ :=
  unrealized_pnl t.spread_percent (current_spread_pct cs cp) t.trade_size_usdt

/-- The exit-strategy name `'spread_target'` (the config default). -/
def spread_target_strategy : String := "spread_target"

/-- Per-trade body of `ImprovedArbitrageBot.check_exit_conditions`: the
four trigger tests run in sequence and every true test overwrites both
`should_exit` and `reason`, so the reported reason belongs to the LAST
true test. `trade_age` is passed explicitly; in the source the age of a
trade whose timestamp is an ISO string always evaluates to the constant
60 (the `hasattr` fallback). -/
def check_exit (exit_strategy : String) (trade : PaperTrade)
    (spot perp trade_age : ℚ) : Bool × String :=
  let current_spread := current_spread_pct spot perp
  let pnl := unrealized_pnl trade.spread_percent current_spread trade.trade_size_usdt
  let r0 : Bool × String := (false, "")
  let r1 := if exit_strategy = spread_target_strategy ∧ current_spread ≤ 1/10
    then (true, "Target spread reached") else r0
  let r2 := if pnl < -2 then (true, "Stop loss triggered") else r1
  let r3 := if pnl > 0 ∧ current_spread < trade.spread_percent * (1/2)
    then (true, "Take profit") else r2
  if trade_age > 60 then (true, "Max time reached") else r3

/-- A concrete OPEN trade entered at spot 100, perp 101 (spread 1%). -/
def sampleOpenTrade : PaperTrade :=
  { id := 1, spot_symbol := sym_spot, perp_symbol := sym_perp,
    spot_price := 100, perp_price := 101, trade_size_usdt := 1000,
    spread_percent := 1, expected_profit := 7/2, status := TradeStatus.OPEN,
    close_spot_price := none, close_perp_price := none, actual_profit := none }

/-- A concrete OPEN trade with `entry_spread_pct = 0.5` (spec scenario). -/
def tradeHalfSpread : PaperTrade :=
  { id := 1, spot_symbol := sym_spot, perp_symbol := sym_perp,
    spot_price := 100, perp_price := 201/2, trade_size_usdt := 1000,
    spread_percent := 1/2, expected_profit := 7/2, status := TradeStatus.OPEN,
    close_spot_price := none, close_perp_price := none, actual_profit := none }

/-- A concrete risk configuration used in closed statements. -/
def sampleRiskConfig : RiskConfig :=
  { max_drawdown := 100, max_trades_per_day := 10, cooldown_after_losses := 2,
    cooldown_duration := 30, max_position_size := 3000 }

/-- A concrete risk state sitting inside an active cooldown. -/
def riskInCooldown : RiskState :=
  { daily_trades := 0, daily_loss := 0, consecutive_losses := 2,
    cooldown_until := some 100, open_positions := [] }

/-- A concrete risk state one loss short of the cooldown threshold. -/
def riskOneLoss : RiskState :=
  { daily_trades := 0, daily_loss := 0, consecutive_losses := 1,
    cooldown_until := none, open_positions := [] }

/-- A concrete opportunity of size 1000 used in closed statements. -/
def sampleOpp : ArbitrageOpportunity :=
  { spot_symbol := sym_spot, perp_symbol := sym_perp, spot_price := 100,
    perp_price := 201/2, spread_percent := 1/2,
    potential_profit_usdt := 7/2, trade_size_usdt := 1000 }

/- ### Performance monitor — src/modules/performance_monitor.py -/

/-- The `PerformanceMetrics` dataclass. The purely floating-point
statistics never read by any lifecycle decision (`sharpe_ratio` and the
wall-clock `total_runtime_hours` / `trades_per_hour` /
`opportunities_per_hour` rates) are outside the claims and omitted. -/
structure PerformanceMetrics where
  total_opportunities : Nat
  total_trades : Nat
  profitable_trades : Nat
  losing_trades : Nat
  total_gross_profit : ℚ
  total_fees_paid : ℚ
  total_net_profit : ℚ
  largest_win : ℚ
  largest_loss : ℚ
  win_rate : ℚ
  profit_factor : ℚ
  average_profit_per_trade : ℚ
  roi_percentage : ℚ
  max_drawdown : ℚ
  current_drawdown : ℚ
deriving DecidableEq

/-- All-zero dataclass defaults. -/
def initMetrics : PerformanceMetrics :=
  { total_opportunities := 0, total_trades := 0, profitable_trades := 0,
    losing_trades := 0, total_gross_profit := 0, total_fees_paid := 0,
    total_net_profit := 0, largest_win := 0, largest_loss := 0,
    win_rate := 0, profit_factor := 0, average_profit_per_trade := 0,
    roi_percentage := 0, max_drawdown := 0, current_drawdown := 0 }

/-- State of a `PerformanceMonitor`. `balance_history` is stored newest
first, so the Python `balance_history[-1]` is the list head; snapshot and
metrics-file I/O are out of scope. -/
structure PerfState where
  initial_balance : ℚ
  metrics : PerformanceMetrics
  balance_history : List ℚ
  peak_balance : ℚ
deriving DecidableEq

/-- `PerformanceMonitor.__init__` with no persisted metrics file. -/
def freshPerf (initial_balance : ℚ) : PerfState :=
  { initial_balance := initial_balance, metrics := initMetrics,
    balance_history := [initial_balance], peak_balance := initial_balance }

/-- `PerformanceMonitor.update_derived_metrics`: win rate and average
profit (when any trade exists), then the profit factor from the win/loss
COUNTS times the LARGEST win/loss (with Python truthiness guards on the
largest values), then the ROI from the latest balance. The source's
sequence of guarded assignments is written here as one record update with
one conditional per assigned field; the guards touch disjoint fields, so
the effect is identical statement by statement. -/
def update_derived_metrics (s : PerfState) : PerfState :=
  let m0 := s.metrics
  let total_wins := if m0.largest_win ≠ 0
    then (m0.profitable_trades : ℚ) * |m0.largest_win| else 0
  let total_losses := if m0.largest_loss ≠ 0
    then (m0.losing_trades : ℚ) * |m0.largest_loss| else 0
  { s with metrics := { m0 with
      win_rate := if m0.total_trades > 0
        then ((m0.profitable_trades : ℚ) / (m0.total_trades : ℚ)) * 100
        else m0.win_rate,
      average_profit_per_trade := if m0.total_trades > 0
        then m0.total_net_profit / (m0.total_trades : ℚ)
        else m0.average_profit_per_trade,
      profit_factor := if total_losses > 0
        then total_wins / total_losses else total_wins,
      roi_percentage := if s.initial_balance > 0
        then ((s.balance_history.headD s.initial_balance - s.initial_balance)
                / s.initial_balance) * 100
        else m0.roi_percentage } }

/-- `PerformanceMonitor.record_trade` for a result dict carrying
`net_profit` and `fees.total_fees` (a profit of exactly 0 counts as a
loss, as in the source's `else` branch). `update_risk_metrics` only sets
the omitted `sharpe_ratio` and does not otherwise touch the state. -/
def record_trade (s : PerfState) (net_profit fees : ℚ) : PerfState :=
  let m0 := s.metrics
  update_derived_metrics { s with metrics := { m0 with
    total_trades := m0.total_trades + 1,
    total_fees_paid := m0.total_fees_paid + fees,
    total_net_profit := m0.total_net_profit + net_profit,
    total_gross_profit := m0.total_gross_profit + (net_profit + fees),
    profitable_trades := m0.profitable_trades + (if net_profit > 0 then 1 else 0),
    losing_trades := m0.losing_trades + (if net_profit > 0 then 0 else 1),
    largest_win := if net_profit > 0
      then max m0.largest_win net_profit else m0.largest_win,
    largest_loss := if net_profit > 0
      then m0.largest_loss else min m0.largest_loss net_profit } }

/-- `PerformanceMonitor.update_balance`. -/
def update_balance (s : PerfState) (new_balance : ℚ) : PerfState :=
  let s1 := { s with balance_history := new_balance :: s.balance_history }
  let s2 := if new_balance > s1.peak_balance
    then { s1 with peak_balance := new_balance } else s1
  if s2.peak_balance > 0 then
    let cur := ((s2.peak_balance - new_balance) / s2.peak_balance) * 100
    { s2 with metrics := { s2.metrics with
        current_drawdown := cur,
        max_drawdown := max s2.metrics.max_drawdown cur } }
  else s2

/-- Fold `record_trade` over a list of `(net_profit, fees)` results. -/
def record_trades (s : PerfState) (l : List (ℚ × ℚ)) : PerfState :=
  l.foldl (fun a p => record_trade a p.1 p.2) s

/-- Fold `update_balance` over a list of balances. -/
def update_balances (s : PerfState) (l : List ℚ) : PerfState :=
  l.foldl update_balance s

/-- Number of recorded results with strictly positive net profit. -/
def wins_count : List (ℚ × ℚ) → Nat
  | [] => 0
  | p :: l => (if p.1 > 0 then 1 else 0) + wins_count l

/-- Number of recorded results with non-positive net profit. -/
def losses_count : List (ℚ × ℚ) → Nat
  | [] => 0
  | p :: l => (if p.1 > 0 then 0 else 1) + losses_count l

/-- Running maximum over the winning profits, seeded by an accumulator. -/
def wins_max (acc : ℚ) : List (ℚ × ℚ) → ℚ
  | [] => acc
  | p :: l => wins_max (if p.1 > 0 then max acc p.1 else acc) l

/-- Running minimum over the non-positive profits, seeded likewise. -/
def losses_min (acc : ℚ) : List (ℚ × ℚ) → ℚ
  | [] => acc
  | p :: l => losses_min (if p.1 > 0 then acc else min acc p.1) l

/-- The profit-factor value the source actually computes, as a function
of the four tracked fields: win COUNT × |largest win| over loss COUNT ×
|largest loss|, with truthiness guards, and the bare numerator when the
denominator is not positive. -/
def pf_formula (pw : Nat) (lw : ℚ) (pl : Nat) (ll : ℚ) : ℚ :=
  let total_wins := if lw ≠ 0 then (pw : ℚ) * |lw| else 0
  let total_losses := if ll ≠ 0 then (pl : ℚ) * |ll| else 0
  if total_losses > 0 then total_wins / total_losses else total_wins

/-- Running maximum of an initial peak and a list of balances (the spec's
"maximum of the initial balance and every balance value seen so far"). -/
def peak_spec (acc : ℚ) : List ℚ → ℚ
  | [] => acc
  | b :: l => peak_spec (max acc b) l

/-- A concrete CLOSED trade used in closed witness statements. -/
def sampleClosedTrade : PaperTrade :=
  { id := 1, spot_symbol := sym_spot, perp_symbol := sym_perp,
    spot_price := 100, perp_price := 101, trade_size_usdt := 1000,
    spread_percent := 1, expected_profit := 7/2, status := TradeStatus.CLOSED,
    close_spot_price := some 100, close_perp_price := some 101,
    actual_profit := some (-(3/2)) }

/-- A concrete trader state holding one CLOSED trade. -/
def sampleTraderState : TraderState :=
  { initial_balance := 10000, balance := 9998 + 1/2,
    trades := [sampleClosedTrade], trade_counter := 1 }

/-- C1: for positive prices and a positive configured trade size,
`check_opportunity` produces an `Opportunity` iff the spread strictly
exceeds `min_spread_percent + total_fees_percent` and the derived
expected profit `(spread − fees)/100 × trade_size` is strictly positive;
and on `spot=100`, `perp=100.50`, `min_spread=0.05`, `trade_size=1000`
it produces an opportunity with `spread_percent = 0.5` and
`potential_profit = 3.50`. -/
theorem C1_check_opportunity_iff (cfg : DetectorConfig) (ss ps : String)
    (spot perp : ℚ) (hspot : 0 < spot) (hperp : 0 < perp)
    (hsize : 0 < cfg.trade_size_usdt) :
    ((check_opportunity cfg ss ps spot perp).isSome ↔
      (calculate_spread spot perp > cfg.min_spread_percent + total_fees_percent ∧
        0 < (calculate_spread spot perp - total_fees_percent) / 100 * cfg.trade_size_usdt)) ∧
    ((check_opportunity ⟨1/20, 1000⟩ ss ps 100 (201/2)).map
        (fun o => (o.spread_percent, o.potential_profit_usdt)) = some (1/2, 7/2)) := by
  constructor
  · unfold check_opportunity calculate_profit
    by_cases hthr : calculate_spread spot perp > cfg.min_spread_percent + total_fees_percent
    · simp only [hthr, if_true]
      by_cases hg : calculate_spread spot perp - total_fees_percent > 0
      · have hpos : 0 < (calculate_spread spot perp - total_fees_percent) / 100 *
            cfg.trade_size_usdt := by positivity
        simp [hg, hpos, hthr]
      · have hnp : ¬ (0 : ℚ) <
            (calculate_spread spot perp - total_fees_percent) / 100 * cfg.trade_size_usdt := by
          push_neg at hg ⊢
          have h100 : (0:ℚ) < 100 := by norm_num
          have := div_nonpos_of_nonpos_of_nonneg (by linarith : calculate_spread spot perp - total_fees_percent ≤ 0) (le_of_lt h100)
          exact mul_nonpos_of_nonpos_of_nonneg this (le_of_lt hsize)
        simp [hg, hnp, hthr]
    · simp [hthr]
  · norm_num [check_opportunity, calculate_spread, calculate_profit,
      total_fees_percent, binance_fee_percent, drift_fee_percent]

/-- Witness for C1 at the spec's end-to-end scenario. -/
theorem C1_check_opportunity_iff_witness :
    (check_opportunity ⟨1/20, 1000⟩ sym_spot sym_perp 100 (201/2)).isSome := by
  have h := C1_check_opportunity_iff ⟨1/20, 1000⟩ sym_spot sym_perp 100 (201/2)
    (by norm_num) (by norm_num) (by norm_num)
  exact h.1.mpr (by
    norm_num [calculate_spread, total_fees_percent, binance_fee_percent, drift_fee_percent])

/-- `open_sizes` distributes over list append. -/
theorem open_sizes_append (l1 l2 : List PaperTrade) :
    open_sizes (l1 ++ l2) = open_sizes l1 + open_sizes l2 := by
  induction l1 with
  | nil => simp [open_sizes]
  | cons t ts ih => simp [open_sizes, ih]; ring

/-- `closed_profits` distributes over list append. -/
theorem closed_profits_append (l1 l2 : List PaperTrade) :
    closed_profits (l1 ++ l2) = closed_profits l1 + closed_profits l2 := by
  induction l1 with
  | nil => simp [closed_profits]
  | cons t ts ih => simp [closed_profits, ih]; ring

/-- Closing one open trade moves its size out of the open sum and its
computed profit into the closed sum. -/
theorem close_first_sums (tid : Nat) (cs cp : ℚ) :
    ∀ (ts ts2 : List PaperTrade) (t : PaperTrade),
      close_first tid cs cp ts = some (ts2, t) →
      t.status = TradeStatus.OPEN ∧
      open_sizes ts2 = open_sizes ts - t.trade_size_usdt ∧
      closed_profits ts2 = closed_profits ts + close_profit t cs cp := by
  intro ts
  induction ts with
  | nil => intro ts2 t h; simp [close_first] at h
  | cons a as ih =>
    intro ts2 t h
    by_cases hc : a.id = tid ∧ a.status = TradeStatus.OPEN
    · rw [close_first, if_pos hc] at h
      simp only [Option.some.injEq, Prod.mk.injEq] at h
      obtain ⟨h1, h2⟩ := h
      subst h2
      subst h1
      refine ⟨hc.2, ?_, ?_⟩
      · simp [open_sizes, close_upd, hc.2]
      · simp only [closed_profits, close_upd, hc.2]
        simp [Option.getD]
        ring
    · rw [close_first, if_neg hc] at h
      cases hrec : close_first tid cs cp as with
      | none => rw [hrec] at h; simp at h
      | some p =>
        obtain ⟨ts3, u⟩ := p
        rw [hrec] at h
        simp only [Option.some.injEq, Prod.mk.injEq] at h
        obtain ⟨h1, h2⟩ := h
        subst h2
        subst h1
        obtain ⟨hu1, hu2, hu3⟩ := ih ts3 u hrec
        refine ⟨hu1, ?_, ?_⟩
        · simp only [open_sizes, hu2]
          ring
        · simp only [closed_profits, hu3]
          ring

/-- Each single open/close preserves the balance invariant. -/
theorem run_op_preserves_invariant (s : TraderState) (op : TraderOp)
    (h : balance_invariant s) : balance_invariant (run_op s op) := by
  cases op with
  | openT opp =>
    by_cases hb : s.balance < opp.trade_size_usdt
    · simpa [run_op, execute_trade, hb] using h
    · unfold balance_invariant at h ⊢
      simp [run_op, execute_trade, hb, open_sizes_append, closed_profits_append,
        open_sizes, closed_profits]
      linarith
  | closeT tid cs cp =>
    cases hrec : close_first tid cs cp s.trades with
    | none => simpa [run_op, close_trade, hrec] using h
    | some p =>
      obtain ⟨ts2, t⟩ := p
      obtain ⟨_, h2, h3⟩ := close_first_sums tid cs cp s.trades ts2 t hrec
      unfold balance_invariant at h ⊢
      simp [run_op, close_trade, hrec, h2, h3]
      linarith

/-- C2: after every sequence of opens and closes starting from a fresh
ledger (shutdown force-closes included — they are ordinary closes),
`current_balance + Σ(open trade sizes) = initial_balance + Σ(actual_profit
of closed trades)`. -/
theorem C2_balance_invariant (init : ℚ) (l : List TraderOp) :
    balance_invariant (run_ops (freshTrader init) l) := by
  have gen : ∀ (ops : List TraderOp) (s : TraderState),
      balance_invariant s → balance_invariant (run_ops s ops) := by
    intro ops
    induction ops with
    | nil => intro s hs; simpa [run_ops] using hs
    | cons op rest ih =>
      intro s hs
      have h1 : run_ops s (op :: rest) = run_ops (run_op s op) rest := by
        simp [run_ops]
      rw [h1]
      exact ih _ (run_op_preserves_invariant s op hs)
  exact gen l (freshTrader init)
    (by simp [balance_invariant, freshTrader, open_sizes, closed_profits])

/-- When no trade in the list is OPEN with the requested id, the lookup
fails. -/
theorem close_first_not_found (tid : Nat) (cs cp : ℚ) :
    ∀ ts : List PaperTrade,
      (∀ t ∈ ts, t.id = tid → t.status ≠ TradeStatus.OPEN) →
      close_first tid cs cp ts = none := by
  intro ts
  induction ts with
  | nil => intro _; simp [close_first]
  | cons a as ih =>
    intro h
    have hc : ¬ (a.id = tid ∧ a.status = TradeStatus.OPEN) := by
      intro hand
      exact h a (by simp) hand.1 hand.2
    rw [close_first, if_neg hc, ih (fun t ht => h t (by simp [ht]))]

/-- C3: closing a trade id that is not currently OPEN (nonexistent or
already CLOSED, double closes included) returns the not-found result
(`none`) and leaves the whole ledger state — balance, trade set and every
trade's fields — unchanged. -/
theorem C3_close_not_open_noop (s : TraderState) (tid : Nat) (cs cp : ℚ)
    (h : ∀ t ∈ s.trades, t.id = tid → t.status ≠ TradeStatus.OPEN) :
    close_trade s tid cs cp = (s, none) := by
  unfold close_trade
  rw [close_first_not_found tid cs cp s.trades h]

/-- Witness for C3: re-closing the already-CLOSED trade 1 and closing the
nonexistent trade 2 are both rejected no-ops. -/
theorem C3_close_not_open_noop_witness :
    close_trade sampleTraderState 1 100 101 = (sampleTraderState, none) ∧
    close_trade sampleTraderState 2 100 101 = (sampleTraderState, none) := by
  constructor
  · exact C3_close_not_open_noop sampleTraderState 1 100 101 (by decide)
  · exact C3_close_not_open_noop sampleTraderState 2 100 101 (by decide)

/-- Counterexample to C4: a state whose risk governor is in an active
cooldown (so `check_trade_allowed` returns blocked), with capacity and
balance both fine — yet the bot's open path happily opens the trade,
because the risk governor is never consulted; the claimed
`RiskBlocked` outcome cannot occur. -/
theorem C4_counterexample :
    (check_trade_allowed sampleRiskConfig riskInCooldown 50 1000).1 = false ∧
    open_count (freshTrader 10000).trades < 3 ∧
    ¬ (freshTrader 10000).balance < 1000 ∧
    ((price_callback_open ⟨3⟩ (freshTrader 10000) sampleOpp).2).isSome := by
  refine ⟨?_, by decide, ?_, ?_⟩
  · decide
  · norm_num [freshTrader]
  · norm_num [price_callback_open, open_count, freshTrader, execute_trade, sampleOpp]

/-- C4 (amended): the open path checks only, in order, (a) the capacity
gate — on failure nothing happens; (b) the balance — on failure nothing
happens; when both pass it allocates the next id, debits the balance by
the size, and appends a new OPEN trade. The risk governor is not part of
the path, so no risk-based rejection exists. -/
theorem C4_open_gate (cfg : BotV2Config) (s : TraderState)
    (opp : ArbitrageOpportunity) :
    (¬ open_count s.trades < cfg.max_open_trades →
      price_callback_open cfg s opp = (s, none)) ∧
    (open_count s.trades < cfg.max_open_trades →
      s.balance < opp.trade_size_usdt →
      price_callback_open cfg s opp = (s, none)) ∧
    (open_count s.trades < cfg.max_open_trades →
      ¬ s.balance < opp.trade_size_usdt →
      ∃ t : PaperTrade,
        (price_callback_open cfg s opp).2 = some t ∧
        t.id = s.trade_counter + 1 ∧
        t.status = TradeStatus.OPEN ∧
        t.trade_size_usdt = opp.trade_size_usdt ∧
        (price_callback_open cfg s opp).1.balance
          = s.balance - opp.trade_size_usdt ∧
        (price_callback_open cfg s opp).1.trades = s.trades ++ [t] ∧
        (price_callback_open cfg s opp).1.trade_counter
          = s.trade_counter + 1) := by
  refine ⟨?_, ?_, ?_⟩
  · intro hcap
    simp [price_callback_open, hcap]
  · intro hcap hbal
    simp [price_callback_open, hcap, execute_trade, hbal]
  · intro hcap hbal
    simp only [price_callback_open, if_pos hcap]
    unfold execute_trade
    rw [if_neg hbal]
    exact ⟨_, rfl, rfl, rfl, rfl, rfl, rfl, rfl⟩

/-- Witness for C4 (amended): the successful branch at a concrete state. -/
theorem C4_open_gate_witness :
    (price_callback_open ⟨3⟩ (freshTrader 10000) sampleOpp).1.balance = 9000 := by
  obtain ⟨t, _, _, _, _, hbal, _, _⟩ :=
    (C4_open_gate ⟨3⟩ (freshTrader 10000) sampleOpp).2.2 (by decide)
      (by norm_num [freshTrader, sampleOpp])
  rw [hbal]
  norm_num [freshTrader, sampleOpp]

/-- C7: recording the loss that brings `consecutive_losses` up to
`cooldown_after_losses` sets `cooldown_until` to the loss time plus
`cooldown_duration`; every `check_trade_allowed` strictly before that
instant is blocked; from that instant on it succeeds whenever the daily
trade, daily loss and exposure limits also pass; and recording a
non-negative result resets `consecutive_losses` to 0. -/
theorem C7_risk_cooldown (cfg : RiskConfig) (s : RiskState)
    (now profit size sz : ℚ) :
    (profit < 0 → cfg.cooldown_after_losses ≤ s.consecutive_losses + 1 →
      ((record_trade_result cfg s now profit size).cooldown_until
          = some (now + cfg.cooldown_duration) ∧
        (∀ t : ℚ, t < now + cfg.cooldown_duration →
          (check_trade_allowed cfg (record_trade_result cfg s now profit size)
              t sz).1 = false) ∧
        (∀ t : ℚ, ¬ t < now + cfg.cooldown_duration →
          (record_trade_result cfg s now profit size).daily_trades
              < cfg.max_trades_per_day →
          |(record_trade_result cfg s now profit size).daily_loss|
              < cfg.max_drawdown →
          ¬ total_exposure
                (record_trade_result cfg s now profit size).open_positions + sz
              > cfg.max_position_size →
          (check_trade_allowed cfg (record_trade_result cfg s now profit size)
              t sz).1 = true))) ∧
    (0 ≤ profit →
      (record_trade_result cfg s now profit size).consecutive_losses = 0) := by
  constructor
  · intro hp hcl
    have hrec : record_trade_result cfg s now profit size =
        { s with daily_trades := s.daily_trades + 1,
                 daily_loss := s.daily_loss + profit,
                 consecutive_losses := s.consecutive_losses + 1,
                 cooldown_until := some (now + cfg.cooldown_duration) } := by
      simp [record_trade_result, hp, hcl]
    refine ⟨by rw [hrec], ?_, ?_⟩
    · intro t ht
      rw [hrec]
      simp [check_trade_allowed, check_trade_allowed_s, ht]
    · intro t ht hdt hdl hex
      rw [hrec] at hdt hdl hex ⊢
      simp only at hdt hdl hex
      simp [check_trade_allowed, check_trade_allowed_s, ht, check_trade_limits,
        not_le.2 hdt, not_le.2 hdl, hex]
  · intro hp
    simp [record_trade_result, not_lt.2 hp]

/-- Witness for C7: with threshold 2 and duration 30, a second loss at
time 0 blocks trading at time 10, trading is allowed again at time 30,
and a winning result resets the loss streak. -/
theorem C7_risk_cooldown_witness :
    (check_trade_allowed sampleRiskConfig
        (record_trade_result sampleRiskConfig riskOneLoss 0 (-1) 100)
        10 100).1 = false ∧
    (check_trade_allowed sampleRiskConfig
        (record_trade_result sampleRiskConfig riskOneLoss 0 (-1) 100)
        30 100).1 = true ∧
    (record_trade_result sampleRiskConfig riskOneLoss 0 1 100).consecutive_losses
        = 0 := by
  have h := C7_risk_cooldown sampleRiskConfig riskOneLoss 0 (-1) 100 100
  have h1 := h.1 (by norm_num) (by decide)
  refine ⟨?_, ?_, ?_⟩
  · exact h1.2.1 10 (by norm_num [sampleRiskConfig])
  · exact h1.2.2 30 (by norm_num [sampleRiskConfig])
      (by norm_num [record_trade_result, riskOneLoss, sampleRiskConfig])
      (by norm_num [record_trade_result, riskOneLoss, sampleRiskConfig, abs_lt])
      (by norm_num [record_trade_result, riskOneLoss, sampleRiskConfig,
        total_exposure])
  · exact (C7_risk_cooldown sampleRiskConfig riskOneLoss 0 1 100 100).2
      (by norm_num)

/-- C10: `check_trade_allowed` is a pure read — the method body of the
source contains no assignment, so the risk state it returns is exactly the
risk state it was given, on every branch. -/
theorem C10_check_trade_allowed_pure (cfg : RiskConfig) (s : RiskState)
    (now size : ℚ) : (check_trade_allowed_s cfg s now size).2 = s := by
  have hlim : (check_trade_limits cfg s size).2 = s := by
    unfold check_trade_limits
    split_ifs <;> rfl
  unfold check_trade_allowed_s
  cases s.cooldown_until with
  | none => exact hlim
  | some c =>
    by_cases hn : now < c
    · simp [hn]
    · simp [hn, hlim]

/-- Counterexample to C5: `close_trade` divides BOTH dollar spreads by the
entry spot price, while `unrealized_pnl` divides each percentage spread by
its own spot price. For a trade entered at (100, 101) and closed at
(200, 201) the code books −1.50, while the claimed
unrealized-P&L formula gives +3.50. -/
theorem C5_counterexample :
    close_profit sampleOpenTrade 200 201 = -(3/2) ∧
    spec_actual_profit sampleOpenTrade 200 201 = 7/2 ∧
    close_profit sampleOpenTrade 200 201
      ≠ spec_actual_profit sampleOpenTrade 200 201 := by
  norm_num [close_profit, spec_actual_profit, unrealized_pnl,
    current_spread_pct, sampleOpenTrade]

/-- C5 (amended): `close_trade` computes
`((entry_perp − entry_spot) − (close_perp − close_spot))/entry_spot × size
− size × 0.0015` with the single flat fee constant `0.0015`; this agrees
with the `unrealized_pnl` formula exactly when the closing spot price
equals the entry spot price (and the stored `spread_percent` is the
entry spread the open recorded). -/
theorem C5_close_profit_entry_spot (t : PaperTrade) (cs cp : ℚ)
    (hs : t.spot_price ≠ 0) (hcs : cs = t.spot_price)
    (hsp : t.spread_percent = calculate_spread t.spot_price t.perp_price) :
    close_profit t cs cp = spec_actual_profit t cs cp := by
  subst hcs
  unfold close_profit spec_actual_profit unrealized_pnl current_spread_pct
  rw [hsp]
  unfold calculate_spread
  field_simp
  ring

/-- Witness for C5 (amended) at a concrete trade closed on its entry spot
price. -/
theorem C5_close_profit_entry_spot_witness :
    close_profit sampleOpenTrade 100 (201/2)
      = spec_actual_profit sampleOpenTrade 100 (201/2) :=
  C5_close_profit_entry_spot sampleOpenTrade 100 (201/2)
    (by norm_num [sampleOpenTrade]) (by norm_num [sampleOpenTrade])
    (by norm_num [sampleOpenTrade, calculate_spread])

/-- Counterexample to C6's scenario clause: a trade opened at
`entry_spread_pct = 0.5` does exit on a tick with
`current_spread_pct = 0.1` under the `spread_target` strategy — but the
reported reason is "Take profit", not the target reason, because the
take-profit test runs after the target test and overwrites the reason
(`pnl = 2.5 > 0` and `0.1 < 0.25`). -/
theorem C6_counterexample :
    (check_exit spread_target_strategy tradeHalfSpread 100 (1001/10) 60)
      = (true, "Take profit") ∧
    (check_exit spread_target_strategy tradeHalfSpread 100 (1001/10) 60).2
      ≠ "Target spread reached" := by
  constructor
  · norm_num [check_exit, current_spread_pct, unrealized_pnl, tradeHalfSpread]
  · norm_num [check_exit, current_spread_pct, unrealized_pnl, tradeHalfSpread]
    decide

/-- C6 (amended): under the `spread_target` strategy, `should_exit` is
true exactly when at least one of the four triggers holds — target
(`current_spread ≤ 0.1`), stop loss (`pnl < −2`), take profit
(`pnl > 0` and `current_spread < entry_spread × 0.5`), max hold
(`age > 60`) — independent of the order of the tests; in the spec's
scenario the trade exits, with the last matching trigger's reason,
"Take profit". -/
theorem C6_exit_disjunction (trade : PaperTrade) (spot perp trade_age : ℚ) :
    ((check_exit spread_target_strategy trade spot perp trade_age).1 = true ↔
      (current_spread_pct spot perp ≤ 1/10 ∨
        unrealized_pnl trade.spread_percent (current_spread_pct spot perp)
            trade.trade_size_usdt < -2 ∨
        (unrealized_pnl trade.spread_percent (current_spread_pct spot perp)
              trade.trade_size_usdt > 0 ∧
          current_spread_pct spot perp < trade.spread_percent * (1/2)) ∨
        trade_age > 60)) ∧
    (check_exit spread_target_strategy tradeHalfSpread 100 (1001/10) 60).1
      = true := by
  constructor
  · simp only [check_exit]
    split_ifs <;> simp_all
  · norm_num [check_exit, current_spread_pct, unrealized_pnl, tradeHalfSpread]

/-- Field bookkeeping of a single `record_trade`: counts and extrema
update as expected, and the recomputed `profit_factor` is exactly
`pf_formula` of the four updated fields. -/
theorem record_trade_fields (s : PerfState) (np f : ℚ) :
    (record_trade s np f).metrics.profitable_trades
        = s.metrics.profitable_trades + (if np > 0 then 1 else 0) ∧
    (record_trade s np f).metrics.losing_trades
        = s.metrics.losing_trades + (if np > 0 then 0 else 1) ∧
    (record_trade s np f).metrics.largest_win
        = (if np > 0 then max s.metrics.largest_win np
           else s.metrics.largest_win) ∧
    (record_trade s np f).metrics.largest_loss
        = (if np > 0 then s.metrics.largest_loss
           else min s.metrics.largest_loss np) ∧
    (record_trade s np f).metrics.profit_factor
        = pf_formula (record_trade s np f).metrics.profitable_trades
            (record_trade s np f).metrics.largest_win
            (record_trade s np f).metrics.losing_trades
            (record_trade s np f).metrics.largest_loss := by
  refine ⟨rfl, rfl, rfl, rfl, ?_⟩
  rfl

/-- Running `record_trade` over a whole result list: the tracked counts
and extrema are folds over the list, and (once at least one trade exists)
`profit_factor` is `pf_formula` of those four tracked values. -/
theorem record_trades_fields :
    ∀ (l : List (ℚ × ℚ)) (s : PerfState),
      (record_trades s l).metrics.profitable_trades
          = s.metrics.profitable_trades + wins_count l ∧
      (record_trades s l).metrics.losing_trades
          = s.metrics.losing_trades + losses_count l ∧
      (record_trades s l).metrics.largest_win
          = wins_max s.metrics.largest_win l ∧
      (record_trades s l).metrics.largest_loss
          = losses_min s.metrics.largest_loss l ∧
      (l ≠ [] → (record_trades s l).metrics.profit_factor
          = pf_formula (record_trades s l).metrics.profitable_trades
              (record_trades s l).metrics.largest_win
              (record_trades s l).metrics.losing_trades
              (record_trades s l).metrics.largest_loss) := by
  intro l
  induction l with
  | nil =>
    intro s
    simp [record_trades, wins_count, losses_count, wins_max, losses_min]
  | cons p t ih =>
    intro s
    have hstep := record_trade_fields s p.1 p.2
    have hfold : record_trades s (p :: t)
        = record_trades (record_trade s p.1 p.2) t := by
      simp [record_trades]
    rw [hfold]
    obtain ⟨ih1, ih2, ih3, ih4, ih5⟩ := ih (record_trade s p.1 p.2)
    refine ⟨?_, ?_, ?_, ?_, ?_⟩
    · rw [ih1, hstep.1]
      simp [wins_count, Nat.add_assoc]
    · rw [ih2, hstep.2.1]
      simp [losses_count, Nat.add_assoc]
    · rw [ih3, hstep.2.2.1]
      rfl
    · rw [ih4, hstep.2.2.2.1]
      rfl
    · intro _
      cases t with
      | nil => exact hstep.2.2.2.2
      | cons q r => exact ih5 (by simp)

/-- C8 (amended): after every sequence of `record_trade` calls from a
fresh tracker, `profit_factor` equals `pf_formula` of the recorded
results: (number of wins × largest win) / (number of losses × |most
negative loss|), the numerator alone when that denominator is not
positive, and 0 in place of either product whose extremum is still 0 —
NOT the sum of the winning profits over the summed losses. -/
theorem C8_profit_factor_tracked (init : ℚ) (l : List (ℚ × ℚ)) :
    (record_trades (freshPerf init) l).metrics.profit_factor
      = pf_formula (wins_count l) (wins_max 0 l)
          (losses_count l) (losses_min 0 l) := by
  cases l with
  | nil =>
    simp [record_trades, freshPerf, initMetrics, pf_formula,
      wins_count, losses_count, wins_max, losses_min]
  | cons p t =>
    obtain ⟨h1, h2, h3, h4, h5⟩ := record_trades_fields (p :: t) (freshPerf init)
    rw [h5 (by simp), h1, h2, h3, h4]
    simp [freshPerf, initMetrics]

/-- Counterexample to C8: recording wins 1 and 3 and loss −2 (no fees)
yields `profit_factor = (2 wins × largest 3)/(1 loss × |−2|) = 3`,
whereas the claimed `Σwins/Σlosses = (1+3)/2 = 2`. -/
theorem C8_counterexample :
    (record_trades (freshPerf 10000)
        [(1, 0), (3, 0), (-2, 0)]).metrics.profit_factor = 3 ∧
    ((1 : ℚ) + 3) / |(-2 : ℚ)| = 2 ∧
    (3 : ℚ) ≠ 2 := by
  refine ⟨?_, by norm_num, by norm_num⟩
  norm_num [record_trades, record_trade, update_derived_metrics,
    freshPerf, initMetrics, List.foldl]

/-- `update_balance` never touches `roi_percentage`. -/
theorem update_balance_roi (s : PerfState) (nb : ℚ) :
    (update_balance s nb).metrics.roi_percentage
      = s.metrics.roi_percentage := by
  by_cases h1 : nb > s.peak_balance
  · by_cases h2 : nb > (0 : ℚ) <;> simp [update_balance, h1, h2]
  · by_cases h2 : s.peak_balance > 0 <;> simp [update_balance, h1, h2]

/-- The peak after one `update_balance` is the max of old peak and the
new balance. -/
theorem update_balance_peak (s : PerfState) (nb : ℚ) :
    (update_balance s nb).peak_balance = max s.peak_balance nb := by
  by_cases h1 : nb > s.peak_balance
  · have hm : max s.peak_balance nb = nb := max_eq_right (le_of_lt h1)
    by_cases h2 : nb > (0 : ℚ) <;> simp [update_balance, h1, h2, hm]
  · have hm : max s.peak_balance nb = s.peak_balance := max_eq_left (not_lt.1 h1)
    by_cases h2 : s.peak_balance > 0 <;> simp [update_balance, h1, h2, hm]

/-- Drawdown bookkeeping of one `update_balance` when the (updated) peak
is positive. -/
theorem update_balance_drawdown (s : PerfState) (nb : ℚ)
    (h : 0 < max s.peak_balance nb) :
    (update_balance s nb).metrics.current_drawdown
        = (max s.peak_balance nb - nb) / max s.peak_balance nb * 100 ∧
    (update_balance s nb).metrics.max_drawdown
        = max s.metrics.max_drawdown
            ((max s.peak_balance nb - nb) / max s.peak_balance nb * 100) := by
  by_cases h1 : nb > s.peak_balance
  · have hm : max s.peak_balance nb = nb := max_eq_right (le_of_lt h1)
    rw [hm] at h ⊢
    constructor <;> simp [update_balance, h1, h]
  · have hm : max s.peak_balance nb = s.peak_balance := max_eq_left (not_lt.1 h1)
    rw [hm] at h ⊢
    constructor <;> simp [update_balance, h1, h]

/-- The peak after a whole balance sequence is the running max. -/
theorem update_balances_peak :
    ∀ (l : List ℚ) (s : PerfState),
      (update_balances s l).peak_balance = peak_spec s.peak_balance l := by
  intro l
  induction l with
  | nil => intro s; rfl
  | cons b t ih =>
    intro s
    have hfold : update_balances s (b :: t)
        = update_balances (update_balance s b) t := by
      simp [update_balances]
    rw [hfold, ih, update_balance_peak]
    rfl

/-- The running max dominates its seed and every list element. -/
theorem peak_spec_ge :
    ∀ (l : List ℚ) (acc : ℚ),
      acc ≤ peak_spec acc l ∧ ∀ b ∈ l, b ≤ peak_spec acc l := by
  intro l
  induction l with
  | nil => intro acc; exact ⟨le_refl _, by simp⟩
  | cons c t ih =>
    intro acc
    obtain ⟨ha, hb⟩ := ih (max acc c)
    refine ⟨le_trans (le_max_left acc c) ha, ?_⟩
    intro b hbm
    rcases List.mem_cons.1 hbm with rfl | h
    · exact le_trans (le_max_right acc b) ha
    · exact hb b h

/-- C9 (amended): `update_balance` maintains `peak_balance` as the max of
the initial balance and every balance seen (hence peak ≥ every historical
balance), sets `current_drawdown = (peak − new)/peak × 100` and
`max_drawdown` to the running max of the drawdowns whenever the peak is
positive, and in the scenario [10000, 10500, 9800] yields peak 10500 and
drawdown 20/3 ≈ 6.67% — but it leaves `roi_percentage` untouched; ROI is
recomputed only by `update_derived_metrics` (e.g. inside `record_trade`),
never by `update_balance`. -/
theorem C9_update_balance_tracking :
    (∀ (s : PerfState) (nb : ℚ),
      (update_balance s nb).metrics.roi_percentage
        = s.metrics.roi_percentage) ∧
    (∀ (s : PerfState) (nb : ℚ), 0 < max s.peak_balance nb →
      (update_balance s nb).peak_balance = max s.peak_balance nb ∧
      (update_balance s nb).metrics.current_drawdown
        = (max s.peak_balance nb - nb) / max s.peak_balance nb * 100 ∧
      (update_balance s nb).metrics.max_drawdown
        = max s.metrics.max_drawdown
            ((max s.peak_balance nb - nb) / max s.peak_balance nb * 100)) ∧
    (∀ (init : ℚ) (l : List ℚ),
      (update_balances (freshPerf init) l).peak_balance = peak_spec init l ∧
      ∀ b ∈ l, b ≤ (update_balances (freshPerf init) l).peak_balance) ∧
    ((update_balances (freshPerf 10000) [10500, 9800]).peak_balance
        = 10500 ∧
      (update_balances (freshPerf 10000)
          [10500, 9800]).metrics.current_drawdown = 20/3) := by
  refine ⟨update_balance_roi, ?_, ?_, ?_⟩
  · intro s nb h
    exact ⟨update_balance_peak s nb, (update_balance_drawdown s nb h).1,
      (update_balance_drawdown s nb h).2⟩
  · intro init l
    have hp := update_balances_peak l (freshPerf init)
    refine ⟨hp, ?_⟩
    intro b hb
    rw [hp]
    exact (peak_spec_ge l ((freshPerf init).peak_balance)).2 b hb
  · constructor <;>
      norm_num [update_balances, update_balance, freshPerf, initMetrics,
        List.foldl, max_def]

/-- Counterexample to C9's ROI clause: one `update_balance(9800)` from a
fresh 10000 tracker leaves `roi_percentage` at its initial 0, not at the
claimed `(9800 − 10000)/10000 × 100 = −2`. -/
theorem C9_counterexample :
    (update_balance (freshPerf 10000) 9800).metrics.roi_percentage = 0 ∧
    ((9800 : ℚ) - 10000) / 10000 * 100 = -2 ∧
    (0 : ℚ) ≠ -2 := by
  refine ⟨?_, by norm_num, by norm_num⟩
  rw [update_balance_roi]
  rfl

/-- Witness for C9 (amended) at a concrete drawdown update. -/
theorem C9_update_balance_tracking_witness :
    (update_balance (freshPerf 10000) 9800).metrics.current_drawdown = 2 := by
  have h := C9_update_balance_tracking.2.1 (freshPerf 10000) 9800
    (by norm_num [freshPerf, max_def])
  rw [h.2.1]
  norm_num [freshPerf, max_def]
